import Mathlib

/-!
Shallow embedding of the NYC yellow-taxi dashboard script (`src/app.py`).

A pandas `DataFrame` of trips is modelled as a `List` of rows.  Timestamps
are seconds (ℕ, timezone-naive); monetary amounts and distances are exact
rationals (the scenarios in scope use values exactly representable in
floats, so float rounding never separates the model from the code).
`NaN` results (pandas `mean` on an empty column, `dict`-based `Series.map`
on a missing key) are modelled as `none`.  Group keys are enumerated in
first-occurrence/`dedup` order rather than pandas' ascending key order;
every property proved below is independent of that enumeration order.
-/

namespace TaxiDash

/-! ### Data model and cleaning pipeline (`load_data`, `app.py` 6-24) -/

/-- English weekday names as produced by pandas `dt.day_name()`,
indexed with 0 = Monday (the index is `(days since epoch + 3) % 7`,
since 1970-01-01 was a Thursday). -/
def dayName : Nat → String
  | 0 => "Monday"
  | 1 => "Tuesday"
  | 2 => "Wednesday"
  | 3 => "Thursday"
  | 4 => "Friday"
  | 5 => "Saturday"
  | _ => "Sunday"

/-- The seven weekday names. -/
def allDayNames : List String :=
  ["Monday", "Tuesday", "Wednesday", "Thursday", "Friday", "Saturday", "Sunday"]

/-- A raw trip record as read from the parquet file, before cleaning
(`app.py` lines 11-17).  The five *critical* columns plus `trip_distance`
may hold nulls (`none`); `total_amount` and `payment_type` are non-null
in the source data and are not inspected by the cleaning code, so they
are kept plain. -/
structure RawTrip where
  tpep_pickup_datetime : Option Nat
  tpep_dropoff_datetime : Option Nat
  pULocationID : Option Nat
  dOLocationID : Option Nat
  fare_amount : Option ℚ
  trip_distance : Option ℚ
  total_amount : ℚ
  payment_type : Nat
  deriving DecidableEq, Repr

/-- A cleaned trip row with the derived calendar columns
(`app.py` lines 19-22). -/
structure Trip where
  tpep_pickup_datetime : Nat
  tpep_dropoff_datetime : Nat
  pULocationID : Nat
  dOLocationID : Nat
  fare_amount : ℚ
  trip_distance : ℚ
  total_amount : ℚ
  payment_type : Nat
  pickup_date : Nat
  pickup_hour : Nat
  pickup_dayofweek : String
  deriving DecidableEq, Repr

/-- One raw row through the cleaning pipeline of `load_data`
(`app.py` lines 14-22): `dropna` on the five critical columns, then the
boolean mask `trip_distance > 0 & fare_amount > 0 & fare_amount <= 500 &
dropoff > pickup` (a pandas comparison against a null/NaN is `False`, so
a null `trip_distance` also drops the row), then the derived columns
`pickup_date = dt.date`, `pickup_hour = dt.hour`,
`pickup_dayofweek = dt.day_name()`. -/
def toCleaned (r : RawTrip) : Option Trip :=
  match r.tpep_pickup_datetime, r.tpep_dropoff_datetime, r.pULocationID,
        r.dOLocationID, r.fare_amount, r.trip_distance with
  | some pu, some dp, some pl, some dl, some f, some d =>
    if 0 < d ∧ 0 < f ∧ f ≤ 500 ∧ pu < dp then
      some { tpep_pickup_datetime := pu
             tpep_dropoff_datetime := dp
             pULocationID := pl
             dOLocationID := dl
             fare_amount := f
             trip_distance := d
             total_amount := r.total_amount
             payment_type := r.payment_type
             pickup_date := pu / 86400
             pickup_hour := pu % 86400 / 3600
             pickup_dayofweek := dayName ((pu / 86400 + 3) % 7) }
    else none
  | _, _, _, _, _, _ => none

/-- The cleaning pipeline over a whole table (`app.py` lines 14-22). -/
def cleanTrips (raw : List RawTrip) : List Trip :=
  raw.filterMap toCleaned

/-! ### Error behaviour of the loader (`app.py` 6-17) -/

/-- How `load_data` can fail: `ioError` stands for the
`FileNotFoundError`/`OSError` raised by `pd.read_parquet`/`pd.read_csv`
on an unreadable source, `keyError` for the `KeyError` raised by
`df.dropna(subset=…)` or by column indexing on an absent column. -/
inductive LoadError where
  | ioError
  | keyError
  deriving DecidableEq, Repr

/-- The columns `load_data` passes to `dropna` (`app.py` line 14). -/
def critical_columns : List String :=
  ["tpep_pickup_datetime", "tpep_dropoff_datetime", "PULocationID",
   "DOLocationID", "fare_amount"]

/-- Every trip column the dashboard requires (spec section 6): the five
critical columns plus `trip_distance`, `total_amount`, `payment_type`. -/
def requiredTripColumns : List String :=
  critical_columns ++ ["trip_distance", "total_amount", "payment_type"]

/-- The trip columns whose absence `load_data` itself detects: the five
critical columns (`dropna`) and `trip_distance` (the boolean mask). -/
def loader_columns : List String :=
  critical_columns ++ ["trip_distance"]

/-- The error path of `load_data` (`app.py` lines 6-17): reading either
source can fail with an I/O error; afterwards `dropna(subset=critical_columns)`
raises `KeyError` if a critical column is absent, and the boolean-mask
line raises `KeyError` if `trip_distance` is absent (the other columns it
uses are critical and hence already checked).  `total_amount` and
`payment_type` are never touched inside `load_data`.  On success the
cleaned table is produced; on failure nothing is. -/
def load_data (tripReadable zoneReadable : Bool) (tripCols : List String)
    (raw : List RawTrip) : Except LoadError (List Trip) :=
  if ¬ tripReadable then .error .ioError
  else if ¬ zoneReadable then .error .ioError
  else if ¬ critical_columns.all (fun c => tripCols.contains c) then .error .keyError
  else if ¬ tripCols.contains ("trip_distance") then .error .keyError
  else .ok (cleanTrips raw)

/-! ### Filter engine (`app.py` 32-57) -/

/-- The user's filter selection: date range, hour range, payment codes
(`app.py` lines 32-51). -/
structure Selection where
  d0 : Nat
  d1 : Nat
  h0 : Nat
  h1 : Nat
  payments : List Nat
  deriving DecidableEq, Repr

/-- pandas `Series.between(lo, hi)`: inclusive on both ends. -/
def betweenNat (x lo hi : Nat) : Bool :=
  decide (lo ≤ x) && decide (x ≤ hi)

/-- The filter engine (`app.py` lines 53-57): keep the rows whose
`pickup_date` is between the selected dates, whose `pickup_hour` is
between the selected hours, and whose `payment_type` is in the selected
set (`Series.isin`). -/
def filtered_df (df : List Trip) (sel : Selection) : List Trip :=
  df.filter (fun r =>
    betweenNat r.pickup_date sel.d0 sel.d1 &&
    betweenNat r.pickup_hour sel.h0 sel.h1 &&
    sel.payments.contains r.payment_type)

/-! ### Metrics panel (`app.py` 59-65) -/

/-- pandas `Series.mean`: `NaN` (here `none`) on an empty column,
otherwise the sum divided by the length. -/
def listMean (l : List ℚ) : Option ℚ :=
  if l.isEmpty then none else some (l.sum / l.length)

/-- The five scalar metrics (`app.py` lines 61-65). -/
structure Metrics where
  totalTrips : Nat
  avgFare : Option ℚ
  totalRevenue : ℚ
  avgDistance : Option ℚ
  avgDurationMin : Option ℚ
  deriving DecidableEq, Repr

/-- The metrics panel (`app.py` lines 61-65): row count, mean
`fare_amount`, sum of `total_amount` (0 on empty input, as pandas `sum`),
mean `trip_distance`, and mean of `(dropoff − pickup).total_seconds()`
divided by 60. -/
def metricsPanel (view : List Trip) : Metrics :=
  { totalTrips := view.length
    avgFare := listMean (view.map (fun t => t.fare_amount))
    totalRevenue := (view.map (fun t => t.total_amount)).sum
    avgDistance := listMean (view.map (fun t => t.trip_distance))
    avgDurationMin :=
      (listMean (view.map
        (fun t => (t.tpep_dropoff_datetime : ℚ) - t.tpep_pickup_datetime))).map
        (fun m => m / 60) }

/-! ### Payment breakdown (`app.py` 76-78) -/

/-- The `payment_labels` dict (`app.py` line 45); `Series.map` with a dict
yields `NaN` (`none`) on a key outside it. -/
def payment_labels : Nat → Option String
  | 1 => some ("Credit card")
  | 2 => some ("Cash")
  | 3 => some ("No charge")
  | 4 => some ("Dispute")
  | 5 => some ("Unknown")
  | _ => none

/-- Insert into a list sorted by descending second component, after any
element with an equal count (so repeated insertion is a stable sort). -/
def insertCountDesc (x : Nat × Nat) : List (Nat × Nat) → List (Nat × Nat)
  | [] => [x]
  | y :: ys => if y.2 < x.2 then x :: y :: ys else y :: insertCountDesc x ys

/-- Stable sort by descending count, as pandas `sort_values`/`nlargest`
(`keep='first'`) order their results. -/
def sortCountDesc (l : List (Nat × Nat)) : List (Nat × Nat) :=
  l.foldl (fun acc x => insertCountDesc x acc) []

/-- pandas `Series.value_counts` on the `payment_type` column: one pair
`(code, count)` per distinct code, sorted by descending count. -/
def valueCountsPayment (view : List Trip) : List (Nat × Nat) :=
  sortCountDesc
    (((view.map (fun t => t.payment_type)).dedup).map
      (fun p => (p, (view.map (fun t => t.payment_type)).count p)))

/-- The payment-breakdown chart data (`app.py` lines 76-78):
`value_counts(normalize=True)`, multiplied by 100, codes mapped through
`payment_labels`. -/
def paymentBreakdown (view : List Trip) : List (Option String × ℚ) :=
  (valueCountsPayment view).map
    (fun p => (payment_labels p.1, 100 * ((p.2 : ℚ) / view.length)))

/-! ### Top pickup zones (`app.py` 70-72) -/

/-- One row of the zone-lookup table (`taxi_zone_lookup.csv`); only the
`LocationID` and `Zone` columns are used (`app.py` line 71). -/
structure ZoneRow where
  locID : Nat
  zoneName : String
  deriving DecidableEq, Repr

/-- `filtered_df.groupby('PULocationID').size()` (`app.py` line 70): one
pair `(zone id, row count)` per distinct pickup zone id. -/
def groupCountsPU (view : List Trip) : List (Nat × Nat) :=
  ((view.map (fun t => t.pULocationID)).dedup).map
    (fun z => (z, (view.map (fun t => t.pULocationID)).count z))

/-- `Series.nlargest n`: the `n` largest entries by count, descending
(ties kept in `keep='first'` order). -/
def nlargestCounts (n : Nat) (l : List (Nat × Nat)) : List (Nat × Nat) :=
  (sortCountDesc l).take n

/-- The top-zones chart data (`app.py` lines 70-71): the ten largest
pickup-zone counts, inner-merged with the zone lookup on
`PULocationID = LocationID` (each left row matched against every lookup
row with that id, in lookup order, as `DataFrame.merge` does, preserving
the left order); each output row is `(zone id, zone name, trip count)`. -/
def top_zones (view : List Trip) (zones_df : List ZoneRow) :
    List (Nat × String × Nat) :=
  (nlargestCounts 10 (groupCountsPU view)).flatMap
    (fun p => (zones_df.filter (fun z => z.locID == p.1)).map
      (fun z => (p.1, z.zoneName, p.2)))

/-! ### Weekly/hourly heatmap (`app.py` 95) -/

/-- The pivoted heatmap grid of
`groupby(['pickup_dayofweek','pickup_hour']).size().unstack(fill_value=0)`:
row labels are the weekday names occurring in the view, column labels the
hours occurring in the view (pandas additionally sorts both; the claims
in scope concern dimensions and cell contents, not label order), and each
cell holds the number of trips with that weekday and hour (0 when the
combination never occurs — `fill_value=0`). -/
structure Heatmap where
  rowLabels : List String
  colLabels : List Nat
  cell : String → Nat → Nat

/-- The heatmap computation (`app.py` line 95). -/
def weekly (view : List Trip) : Heatmap :=
  { rowLabels := (view.map (fun t => t.pickup_dayofweek)).dedup
    colLabels := (view.map (fun t => t.pickup_hour)).dedup
    cell := fun d h =>
      (view.filter (fun t =>
        decide (t.pickup_dayofweek = d) && decide (t.pickup_hour = h))).length }

/-! ### Concrete rows used to instantiate theorems -/

/-- A representative cleaned trip row. -/
def sampleTrip : Trip :=
  { tpep_pickup_datetime := 28800
    tpep_dropoff_datetime := 29400
    pULocationID := 132
    dOLocationID := 230
    fare_amount := 10
    trip_distance := 2
    total_amount := 12
    payment_type := 1
    pickup_date := 0
    pickup_hour := 8
    pickup_dayofweek := "Thursday" }

/-- A raw row that survives every cleaning step, with payment code 1. -/
def rawOk : RawTrip :=
  { tpep_pickup_datetime := some 28800
    tpep_dropoff_datetime := some 29400
    pULocationID := some 132
    dOLocationID := some 230
    fare_amount := some 10
    trip_distance := some 2
    total_amount := 12
    payment_type := 1 }

/-- A raw row that survives every cleaning step but carries payment code 0
(present in the real dataset and untouched by the cleaning mask). -/
def rawPay0 : RawTrip :=
  { tpep_pickup_datetime := some 28800
    tpep_dropoff_datetime := some 29400
    pULocationID := some 132
    dOLocationID := some 230
    fare_amount := some 10
    trip_distance := some 2
    total_amount := 12
    payment_type := 0 }

/-- First row of the two-row scenario: payment 1 (credit card), fare 10,
distance 2, pickup 2024-01-01T08:00 (epoch second 1704096000), dropoff
08:10.  The scenario's expected revenue of $30 fixes `total_amount` at
the fare. -/
def scenarioRow1 : Trip :=
  { tpep_pickup_datetime := 1704096000
    tpep_dropoff_datetime := 1704096600
    pULocationID := 132
    dOLocationID := 230
    fare_amount := 10
    trip_distance := 2
    total_amount := 10
    payment_type := 1
    pickup_date := 19723
    pickup_hour := 8
    pickup_dayofweek := "Monday" }

/-- Second row of the two-row scenario: payment 2 (cash), fare 20,
distance 4, pickup 2024-01-01T09:00, dropoff 09:20. -/
def scenarioRow2 : Trip :=
  { tpep_pickup_datetime := 1704099600
    tpep_dropoff_datetime := 1704100800
    pULocationID := 161
    dOLocationID := 100
    fare_amount := 20
    trip_distance := 4
    total_amount := 20
    payment_type := 2
    pickup_date := 19723
    pickup_hour := 9
    pickup_dayofweek := "Monday" }

/-! ### Helper lemmas about the cleaning pipeline -/

/-- Everything `toCleaned` guarantees about a row it keeps: the validity
mask held, the derived columns are computed from the pickup timestamp,
and the five critical columns of the raw row were non-null. -/
theorem toCleaned_spec {r : RawTrip} {t : Trip} (h : toCleaned r = some t) :
    t.tpep_pickup_datetime < t.tpep_dropoff_datetime ∧
    0 < t.trip_distance ∧ 0 < t.fare_amount ∧ t.fare_amount ≤ 500 ∧
    t.pickup_date = t.tpep_pickup_datetime / 86400 ∧
    t.pickup_hour = t.tpep_pickup_datetime % 86400 / 3600 ∧
    t.pickup_dayofweek = dayName ((t.tpep_pickup_datetime / 86400 + 3) % 7) ∧
    r.tpep_pickup_datetime = some t.tpep_pickup_datetime ∧
    r.tpep_dropoff_datetime = some t.tpep_dropoff_datetime ∧
    r.pULocationID = some t.pULocationID ∧
    r.dOLocationID = some t.dOLocationID ∧
    r.fare_amount = some t.fare_amount := by
  rcases r with ⟨pu, dp, pl, dl, f, d, tot, pay⟩
  cases pu <;> cases dp <;> cases pl <;> cases dl <;> cases f <;> cases d <;>
    simp only [toCleaned] at h <;>
    try exact Option.noConfusion h
  split at h
  · next hc =>
    obtain ⟨hd, hf0, hf1, ht⟩ := hc
    cases h
    refine ⟨ht, hd, hf0, hf1, rfl, rfl, rfl, rfl, rfl, rfl, rfl, rfl⟩
  · exact absurd h (by simp)

/-- Membership in the cleaned table. -/
theorem mem_cleanTrips {raw : List RawTrip} {t : Trip} :
    t ∈ cleanTrips raw ↔ ∃ r ∈ raw, toCleaned r = some t := by
  simp [cleanTrips, List.mem_filterMap]

/-- Every cleaned row's derived pickup hour is below 24. -/
theorem cleaned_pickup_hour_lt {raw : List RawTrip} {t : Trip}
    (ht : t ∈ cleanTrips raw) : t.pickup_hour < 24 := by
  obtain ⟨r, -, hr⟩ := mem_cleanTrips.mp ht
  obtain ⟨-, -, -, -, -, hh, -⟩ := toCleaned_spec hr
  rw [hh]
  omega

/-- Every cleaned row's weekday name is one of the seven. -/
theorem cleaned_dayofweek_mem {raw : List RawTrip} {t : Trip}
    (ht : t ∈ cleanTrips raw) : t.pickup_dayofweek ∈ allDayNames := by
  obtain ⟨r, -, hr⟩ := mem_cleanTrips.mp ht
  obtain ⟨-, -, -, -, -, -, hd, -⟩ := toCleaned_spec hr
  rw [hd]
  have h7 : (t.tpep_pickup_datetime / 86400 + 3) % 7 < 7 := by omega
  interval_cases h : (t.tpep_pickup_datetime / 86400 + 3) % 7 <;> decide

/-! ### Claim C1 -/

/-- **C1.** The filter engine returns exactly the rows of the table whose
pickup date lies in `[d0, d1]`, whose pickup hour lies in `[h0, h1]`
(both inclusive), and whose payment type is among the selected codes. -/
theorem filter_engine_mem_iff (df : List Trip) (sel : Selection) (r : Trip) :
    r ∈ filtered_df df sel ↔
      r ∈ df ∧
      (sel.d0 ≤ r.pickup_date ∧ r.pickup_date ≤ sel.d1) ∧
      (sel.h0 ≤ r.pickup_hour ∧ r.pickup_hour ≤ sel.h1) ∧
      r.payment_type ∈ sel.payments := by
  simp [filtered_df, betweenNat, List.mem_filter, and_assoc]

/-! ### Claim C7 -/

/-- **C7.** With an empty selected-payment list, or an inverted date range
(`d1 < d0`), or an inverted hour range (`h1 < h0`), the filter engine
returns the empty table; being a total function, it raises no error. -/
theorem filter_engine_empty_cases (df : List Trip) (sel : Selection)
    (h : sel.payments = [] ∨ sel.d1 < sel.d0 ∨ sel.h1 < sel.h0) :
    filtered_df df sel = [] := by
  rw [filtered_df, List.filter_eq_nil_iff]
  intro t _
  simp only [Bool.and_eq_true, betweenNat, decide_eq_true_eq, List.contains,
    List.elem_eq_mem, not_and]
  rintro ⟨⟨hd0, hd1⟩, h0, h1⟩
  rcases h with h | h | h
  · simp [h]
  · omega
  · omega

/-- Witness for C7 at a concrete input: a one-row table and an empty
payment selection give an empty result. -/
theorem filter_engine_empty_cases_witness :
    filtered_df [sampleTrip] ⟨0, 100, 0, 23, []⟩ = [] :=
  filter_engine_empty_cases [sampleTrip] ⟨0, 100, 0, 23, []⟩ (Or.inl rfl)

/-! ### Claim C2 -/

/-- **C2 (amended).** The filter engine with a date range covering every
pickup date, the full hour range `[0, 23]`, and a payment selection that
contains every payment code present, returns the cleaned table unchanged.
(The hypothesis on payment codes is necessary: cleaning does not restrict
`payment_type`, so the full set `{1,…,5}` need not cover the table —
see the counterexample.) -/
theorem filter_engine_full_selection_id (raw : List RawTrip) (sel : Selection)
    (hd0 : ∀ t ∈ cleanTrips raw, sel.d0 ≤ t.pickup_date)
    (hd1 : ∀ t ∈ cleanTrips raw, t.pickup_date ≤ sel.d1)
    (hh0 : sel.h0 = 0) (hh1 : sel.h1 = 23)
    (hpay : ∀ t ∈ cleanTrips raw, t.payment_type ∈ sel.payments) :
    filtered_df (cleanTrips raw) sel = cleanTrips raw := by
  rw [filtered_df, List.filter_eq_self]
  intro t ht
  have hhour := cleaned_pickup_hour_lt ht
  simp only [Bool.and_eq_true, betweenNat, decide_eq_true_eq, List.contains,
    List.elem_eq_mem]
  exact ⟨⟨⟨hd0 t ht, hd1 t ht⟩, by omega, by omega⟩, hpay t ht⟩

/-- Witness for C2 at a concrete input: on a one-row cleaned table whose
payment code is 1, the full selection is the identity. -/
theorem filter_engine_full_selection_id_witness :
    filtered_df (cleanTrips [rawOk]) ⟨0, 0, 0, 23, [1, 2, 3, 4, 5]⟩ =
      cleanTrips [rawOk] :=
  filter_engine_full_selection_id [rawOk] ⟨0, 0, 0, 23, [1, 2, 3, 4, 5]⟩
    (by decide) (by decide) rfl rfl (by decide)

/-- **C2 counterexample.** A cleaned table holding one row with payment
code 0: the selection `[min date, max date] × [0,23] × {1,2,3,4,5}` —
exactly the "full" selection of the claim — returns the empty table, not
the cleaned table. -/
theorem filter_engine_full_selection_cex :
    cleanTrips [rawPay0] ≠ [] ∧
    (∀ t ∈ cleanTrips [rawPay0], t.pickup_date = 0) ∧
    filtered_df (cleanTrips [rawPay0]) ⟨0, 0, 0, 23, [1, 2, 3, 4, 5]⟩ = [] := by
  refine ⟨by decide, by decide, by decide⟩

/-! ### Claim C4 -/

/-- **C4.** Every row of the cleaned table satisfies the cleaning
invariants: the dropoff timestamp is strictly after the pickup timestamp,
the trip distance is strictly positive, the fare is strictly positive and
at most 500, and the row comes from a raw row whose pickup time, dropoff
time, pickup zone, dropoff zone and fare amount were all non-null (the
cleaned row type carries them as plain, non-optional values). -/
theorem cleaned_row_invariants (raw : List RawTrip) (t : Trip)
    (ht : t ∈ cleanTrips raw) :
    t.tpep_pickup_datetime < t.tpep_dropoff_datetime ∧
    0 < t.trip_distance ∧ 0 < t.fare_amount ∧ t.fare_amount ≤ 500 ∧
    ∃ r ∈ raw, toCleaned r = some t ∧
      r.tpep_pickup_datetime = some t.tpep_pickup_datetime ∧
      r.tpep_dropoff_datetime = some t.tpep_dropoff_datetime ∧
      r.pULocationID = some t.pULocationID ∧
      r.dOLocationID = some t.dOLocationID ∧
      r.fare_amount = some t.fare_amount := by
  obtain ⟨r, hrm, hr⟩ := mem_cleanTrips.mp ht
  obtain ⟨h1, h2, h3, h4, -, -, -, h5, h6, h7, h8, h9⟩ := toCleaned_spec hr
  exact ⟨h1, h2, h3, h4, r, hrm, hr, h5, h6, h7, h8, h9⟩

/-- Witness for C4 at a concrete input: the row cleaned from `rawOk` has
a strictly positive distance. -/
theorem cleaned_row_invariants_witness : 0 < sampleTrip.trip_distance :=
  (cleaned_row_invariants [rawOk] sampleTrip (by decide)).2.1

/-! ### Claim C6 -/

/-- **C6.** On the empty filtered view the metrics panel reports a trip
count of 0, and all five metrics are still computed — the panel is a
total function, so no exception is possible: the count and the revenue
sum are 0 and the three means take pandas' NaN default, modelled as
`none`. -/
theorem metrics_empty_no_raise :
    metricsPanel [] =
      { totalTrips := 0, avgFare := none, totalRevenue := 0,
        avgDistance := none, avgDurationMin := none } := rfl

/-! ### Claim C10 -/

/-- **C10.** On the empty filtered view, Total Trips and Total Revenue
are 0 (a count and a sum over no rows), while Avg Fare, Avg Distance and
Avg Duration are NaN (`none`, a mean over no rows) — in particular none
of the three averages is the number 0. -/
theorem metrics_empty_nan_vs_zero :
    (metricsPanel []).totalTrips = 0 ∧
    (metricsPanel []).totalRevenue = 0 ∧
    (metricsPanel []).avgFare = none ∧
    (metricsPanel []).avgFare ≠ some 0 ∧
    (metricsPanel []).avgDistance = none ∧
    (metricsPanel []).avgDistance ≠ some 0 ∧
    (metricsPanel []).avgDurationMin = none ∧
    (metricsPanel []).avgDurationMin ≠ some 0 := by
  refine ⟨rfl, rfl, rfl, by decide, rfl, by decide, rfl, by decide⟩

/-! ### Helper lemmas about the descending count sort -/

/-- Membership through one descending insertion. -/
theorem mem_insertCountDesc {x a : Nat × Nat} {l : List (Nat × Nat)} :
    a ∈ insertCountDesc x l ↔ a = x ∨ a ∈ l := by
  induction l with
  | nil => simp [insertCountDesc]
  | cons y ys ih =>
    simp only [insertCountDesc]
    split
    · simp [List.mem_cons, or_comm, or_left_comm]
    · simp only [List.mem_cons, ih]
      tauto

/-- Descending insertion preserves the descending-count invariant. -/
theorem pairwise_insertCountDesc {x : Nat × Nat} {l : List (Nat × Nat)}
    (h : l.Pairwise (fun a b => b.2 ≤ a.2)) :
    (insertCountDesc x l).Pairwise (fun a b => b.2 ≤ a.2) := by
  induction l with
  | nil => simp [insertCountDesc]
  | cons y ys ih =>
    rw [List.pairwise_cons] at h
    obtain ⟨hy, hys⟩ := h
    simp only [insertCountDesc]
    split
    · next hlt =>
      refine List.Pairwise.cons ?_ (List.Pairwise.cons hy hys)
      intro z hz
      rcases List.mem_cons.mp hz with rfl | hz'
      · omega
      · have := hy z hz'
        omega
    · next hge =>
      refine List.Pairwise.cons ?_ (ih hys)
      intro z hz
      rcases mem_insertCountDesc.mp hz with rfl | hz'
      · omega
      · exact hy z hz'

/-- The output of `sortCountDesc` is sorted by descending count. -/
theorem pairwise_sortCountDesc (l : List (Nat × Nat)) :
    (sortCountDesc l).Pairwise (fun a b => b.2 ≤ a.2) := by
  suffices h : ∀ acc : List (Nat × Nat), acc.Pairwise (fun a b => b.2 ≤ a.2) →
      (l.foldl (fun acc x => insertCountDesc x acc) acc).Pairwise
        (fun a b => b.2 ≤ a.2) from h [] (by simp)
  induction l with
  | nil =>
    intro acc hacc
    simpa using hacc
  | cons x xs ih =>
    intro acc hacc
    exact ih _ (pairwise_insertCountDesc hacc)

/-- `sortCountDesc` permutes its input and in particular preserves
membership. -/
theorem mem_sortCountDesc {a : Nat × Nat} {l : List (Nat × Nat)} :
    a ∈ sortCountDesc l ↔ a ∈ l := by
  suffices h : ∀ acc : List (Nat × Nat),
      (a ∈ l.foldl (fun acc x => insertCountDesc x acc) acc ↔ a ∈ acc ∨ a ∈ l) by
    simpa using h []
  induction l with
  | nil =>
    intro acc
    simp
  | cons x xs ih =>
    intro acc
    rw [List.foldl_cons, ih, mem_insertCountDesc]
    simp only [List.mem_cons]
    tauto

/-! ### Claim C8 -/

/-- **C8.** The top-zones chart data holds at most 10 distinct zone ids,
its trip counts are sorted in descending order, and every row's zone id
appears in the zone lookup (the inner merge drops unmatched zones). -/
theorem top_zones_props (view : List Trip) (zones_df : List ZoneRow) :
    ((top_zones view zones_df).map (fun r => r.1)).dedup.length ≤ 10 ∧
    (top_zones view zones_df).Pairwise (fun a b => b.2.2 ≤ a.2.2) ∧
    ∀ r ∈ top_zones view zones_df, r.1 ∈ zones_df.map (fun z => z.locID) := by
  have htoppw : (nlargestCounts 10 (groupCountsPU view)).Pairwise
      (fun a b => b.2 ≤ a.2) :=
    (pairwise_sortCountDesc _).sublist (List.take_sublist _ _)
  have htoplen : (nlargestCounts 10 (groupCountsPU view)).length ≤ 10 :=
    List.length_take_le _ _
  refine ⟨?_, ?_, ?_⟩
  · have hsub : ((top_zones view zones_df).map (fun r => r.1)) ⊆
        (nlargestCounts 10 (groupCountsPU view)).map Prod.fst := by
      intro a ha
      simp only [top_zones, List.mem_map, List.mem_flatMap, List.mem_filter] at ha
      obtain ⟨r, ⟨p, hp, z, hz, rfl⟩, rfl⟩ := ha
      exact List.mem_map.mpr ⟨p, hp, rfl⟩
    calc ((top_zones view zones_df).map (fun r => r.1)).dedup.length
        = ((top_zones view zones_df).map (fun r => r.1)).toFinset.card :=
          (List.card_toFinset _).symm
      _ ≤ ((nlargestCounts 10 (groupCountsPU view)).map Prod.fst).toFinset.card := by
          apply Finset.card_le_card
          intro a ha
          rw [List.mem_toFinset] at ha ⊢
          exact hsub ha
      _ ≤ ((nlargestCounts 10 (groupCountsPU view)).map Prod.fst).length :=
          List.toFinset_card_le _
      _ ≤ 10 := by
          rw [List.length_map]
          exact htoplen
  · rw [top_zones, List.pairwise_flatMap]
    constructor
    · intro p hp
      apply List.pairwise_of_forall_mem_list
      intro a ha b hb
      simp only [List.mem_map, List.mem_filter] at ha hb
      obtain ⟨za, hza, rfl⟩ := ha
      obtain ⟨zb, hzb, rfl⟩ := hb
      exact le_refl _
    · refine htoppw.imp ?_
      intro p q h x hx y hy
      simp only [List.mem_map, List.mem_filter] at hx hy
      obtain ⟨zx, hzx, rfl⟩ := hx
      obtain ⟨zy, hzy, rfl⟩ := hy
      exact h
  · intro r hr
    simp only [top_zones, List.mem_flatMap, List.mem_map, List.mem_filter] at hr
    obtain ⟨p, hp, z, ⟨hz, hzid⟩, rfl⟩ := hr
    refine List.mem_map.mpr ⟨z, hz, ?_⟩
    simpa using hzid

/-! ### Claim C9 -/

/-- **C9.** On the two-row scenario view (credit-card trip: fare 10,
distance 2, 10 minutes; cash trip: fare 20, distance 4, 20 minutes) the
metrics panel yields trip count 2, average fare 15, total revenue 30,
average distance 3 and average duration 15 minutes, and the payment
breakdown is Credit card 50%, Cash 50%. -/
theorem scenario_two_rows :
    metricsPanel [scenarioRow1, scenarioRow2] =
      { totalTrips := 2, avgFare := some 15, totalRevenue := 30,
        avgDistance := some 3, avgDurationMin := some 15 } ∧
    paymentBreakdown [scenarioRow1, scenarioRow2] =
      [(some ("Credit card"), 50), (some ("Cash"), 50)] := by
  have hv : valueCountsPayment [scenarioRow1, scenarioRow2] = [(1, 1), (2, 1)] := by
    decide
  constructor
  · simp only [metricsPanel, listMean, scenarioRow1, scenarioRow2, List.map_cons,
      List.map_nil, List.isEmpty_cons, List.sum_cons, List.sum_nil,
      List.length_cons, List.length_nil, Option.map_some]
    norm_num
  · simp only [paymentBreakdown, hv, List.map_cons, List.map_nil, payment_labels,
      List.length_cons, List.length_nil]
    norm_num

/-! ### Claim C3 -/

/-- **C3 (amended).** For every filtered view of a cleaned table, the
heatmap grid has one (de-duplicated) row label per weekday occurring in
the view — hence at most 7 — and one column label per hour occurring in
the view — hence at most 24 — every label comes from a trip in the view
and every trip in the view is covered, and every cell for a (weekday,
hour) combination with no trips holds 0.  (The grid is 7 × 24 only when
all weekdays and hours occur; see the counterexample.) -/
theorem weekly_heatmap_grid (raw : List RawTrip) (sel : Selection)
    (view : List Trip) (hview : view = filtered_df (cleanTrips raw) sel) :
    (weekly view).rowLabels.Nodup ∧ (weekly view).rowLabels.length ≤ 7 ∧
    (weekly view).colLabels.Nodup ∧ (weekly view).colLabels.length ≤ 24 ∧
    (∀ d ∈ (weekly view).rowLabels, ∃ t ∈ view, t.pickup_dayofweek = d) ∧
    (∀ h ∈ (weekly view).colLabels, ∃ t ∈ view, t.pickup_hour = h) ∧
    (∀ t ∈ view, t.pickup_dayofweek ∈ (weekly view).rowLabels ∧
      t.pickup_hour ∈ (weekly view).colLabels) ∧
    (∀ d h, (∀ t ∈ view, ¬(t.pickup_dayofweek = d ∧ t.pickup_hour = h)) →
      (weekly view).cell d h = 0) := by
  have hsubview : ∀ t ∈ view, t ∈ cleanTrips raw := by
    intro t ht
    rw [hview, filtered_df] at ht
    exact List.mem_of_mem_filter ht
  refine ⟨List.nodup_dedup _, ?_, List.nodup_dedup _, ?_, ?_, ?_, ?_, ?_⟩
  · show ((view.map fun t => t.pickup_dayofweek).dedup).length ≤ 7
    rw [← List.card_toFinset]
    calc (view.map fun t => t.pickup_dayofweek).toFinset.card
        ≤ allDayNames.toFinset.card := by
          apply Finset.card_le_card
          intro a ha
          rw [List.mem_toFinset] at ha ⊢
          obtain ⟨t, ht, rfl⟩ := List.mem_map.mp ha
          exact cleaned_dayofweek_mem (hsubview t ht)
      _ ≤ allDayNames.length := List.toFinset_card_le _
      _ = 7 := rfl
  · show ((view.map fun t => t.pickup_hour).dedup).length ≤ 24
    rw [← List.card_toFinset]
    calc (view.map fun t => t.pickup_hour).toFinset.card
        ≤ (Finset.range 24).card := by
          apply Finset.card_le_card
          intro a ha
          rw [List.mem_toFinset] at ha
          obtain ⟨t, ht, rfl⟩ := List.mem_map.mp ha
          rw [Finset.mem_range]
          exact cleaned_pickup_hour_lt (hsubview t ht)
      _ = 24 := Finset.card_range 24
  · intro d hd
    obtain ⟨t, ht, rfl⟩ := List.mem_map.mp (List.mem_dedup.mp hd)
    exact ⟨t, ht, rfl⟩
  · intro h hh
    obtain ⟨t, ht, rfl⟩ := List.mem_map.mp (List.mem_dedup.mp hh)
    exact ⟨t, ht, rfl⟩
  · intro t ht
    constructor
    · exact List.mem_dedup.mpr (List.mem_map.mpr ⟨t, ht, rfl⟩)
    · exact List.mem_dedup.mpr (List.mem_map.mpr ⟨t, ht, rfl⟩)
  · intro d h hnone
    show (view.filter _).length = 0
    rw [List.length_eq_zero, List.filter_eq_nil_iff]
    intro t ht
    simp only [Bool.and_eq_true, decide_eq_true_eq, not_and]
    intro hd hh
    exact hnone t ht ⟨hd, hh⟩

/-- Witness for C3 at a concrete input: on the one-row view cleaned from
`rawOk` (a Thursday, hour 8), the cell for Monday at hour 8 — a
combination with no trips — holds 0. -/
theorem weekly_heatmap_grid_witness :
    (weekly (filtered_df (cleanTrips [rawOk]) ⟨0, 0, 0, 23, [1, 2, 3, 4, 5]⟩)).cell
      ("Monday") 8 = 0 :=
  (weekly_heatmap_grid [rawOk] ⟨0, 0, 0, 23, [1, 2, 3, 4, 5]⟩
      (filtered_df (cleanTrips [rawOk]) ⟨0, 0, 0, 23, [1, 2, 3, 4, 5]⟩)
      rfl).2.2.2.2.2.2.2 ("Monday") 8 (by decide)

/-- **C3 counterexample.** A filtered view with a single trip (one
weekday, one hour): its heatmap grid has 1 row and 1 column, not 7 rows
and 24 columns as claimed. -/
theorem weekly_heatmap_cex :
    (weekly (filtered_df (cleanTrips [rawOk])
        ⟨0, 0, 0, 23, [1, 2, 3, 4, 5]⟩)).rowLabels.length = 1 ∧
    (weekly (filtered_df (cleanTrips [rawOk])
        ⟨0, 0, 0, 23, [1, 2, 3, 4, 5]⟩)).colLabels.length = 1 := by
  refine ⟨by decide, by decide⟩

/-! ### Claim C5 -/

/-- **C5 (amended).** `load_data` fails with an I/O error when either
source is unreadable; once both are readable it fails with a `KeyError`
exactly when one of the six columns it touches (the five critical columns
or `trip_distance`) is absent; and when it succeeds it returns the fully
cleaned table, never a partial one.  (Absence of the remaining required
columns `total_amount` and `payment_type` is *not* detected by the
loader — see the counterexample.) -/
theorem load_data_error_behaviour (tr zr : Bool) (cols : List String)
    (raw : List RawTrip) :
    ((tr = false ∨ zr = false) → load_data tr zr cols raw = .error .ioError) ∧
    (tr = true → zr = true →
      (load_data tr zr cols raw = .error .keyError ↔
        ∃ c ∈ loader_columns, ¬ c ∈ cols)) ∧
    (∀ res, load_data tr zr cols raw = .ok res → res = cleanTrips raw) := by
  refine ⟨?_, ?_, ?_⟩
  · rintro (rfl | rfl) <;> simp [load_data]
  · rintro rfl rfl
    by_cases h5 : critical_columns.all (fun c => cols.contains c) = true <;>
      by_cases h6 : cols.contains ("trip_distance") = true
    · rw [load_data, if_neg (by simp), if_neg (by simp), if_neg (not_not_intro h5),
        if_neg (not_not_intro h6)]
      constructor
      · intro h
        exact absurd h (by simp)
      · rintro ⟨c, hc, hcc⟩
        rw [List.all_eq_true] at h5
        rcases List.mem_append.mp hc with hc5 | hc1
        · exact absurd (by simpa [List.contains, List.elem_eq_mem] using h5 c hc5) hcc
        · rcases List.mem_singleton.mp hc1 with rfl
          exact absurd (by simpa [List.contains, List.elem_eq_mem] using h6) hcc
    · rw [load_data, if_neg (by simp), if_neg (by simp), if_neg (not_not_intro h5),
        if_pos h6]
      refine iff_of_true rfl ⟨"trip_distance", by decide, ?_⟩
      simpa [List.contains, List.elem_eq_mem] using h6
    all_goals
      rw [load_data, if_neg (by simp), if_neg (by simp), if_pos h5]
      rw [List.all_eq_true] at h5
      push_neg at h5
      obtain ⟨c, hc, hcc⟩ := h5
      refine iff_of_true rfl
        ⟨c, List.mem_append.mpr (Or.inl hc),
          by simpa [List.contains, List.elem_eq_mem] using hcc⟩
  · intro res h
    rw [load_data] at h
    split at h
    · exact absurd h (by simp)
    · split at h
      · exact absurd h (by simp)
      · split at h
        · exact absurd h (by simp)
        · split at h
          · exact absurd h (by simp)
          · exact (Except.ok.inj h).symm

/-- Witness for C5 at a concrete input: an unreadable trip source makes
the loader fail with the I/O error. -/
theorem load_data_error_behaviour_witness :
    load_data false true requiredTripColumns [] = .error .ioError :=
  (load_data_error_behaviour false true requiredTripColumns []).1 (Or.inl rfl)

/-- **C5 counterexample.** `total_amount` is a required column, yet with
every required column *except* `total_amount` present the loader
succeeds and hands back a table — it does not fail with a schema error
as claimed (the absence only surfaces later, outside the loader). -/
theorem load_data_missing_required_ok :
    "total_amount" ∈ requiredTripColumns ∧
    "total_amount" ∉ requiredTripColumns.erase ("total_amount") ∧
    load_data true true (requiredTripColumns.erase ("total_amount")) [] =
      .ok [] := by
  refine ⟨by decide, by decide, by rfl⟩

end TaxiDash
